import Mathlib

/-!
# Verification of `VotingKeyLinkV1Transaction`

A shallow embedding of `src/model/transaction/VotingKeyLinkV1Transaction.ts`
from the symbol-sdk TypeScript repository, together with theorems settling
the specification's claims about it.

Byte strings are `List Nat` with every element `< 256`; hex strings carrying
byte content (public keys, signatures, payloads) are represented directly by
the byte lists they denote, so the hex conversion helpers `Convert.hexToUint8`
and `Convert.uint8ToHex` of the SDK become identities of the representation.
64-bit quantities (`UInt64`) are `Nat` values, taken modulo `2^64` where the
wire format truncates.

The collaborators of the class that live outside the given source file — the
generated `catbuffer` builders, the base `Transaction` class, `Deadline`,
`PublicAccount`, `Address` — are modelled from the specification's description
of their contracts; each such definition is marked `Modelled from the spec:`.
-/

set_option maxRecDepth 100000

namespace SymbolSdk

/-- Little-endian encoding of a natural number into `w` bytes (value taken
modulo `2^(8*w)`). Models the fixed-width integer fields of the wire layout. -/
def toBytesLE : Nat → Nat → List Nat
  | 0, _ => []
  | w + 1, v => v % 256 :: toBytesLE w (v / 256)

/-- Little-endian decoding of a byte list into a natural number. -/
def fromBytesLE : List Nat → Nat
  | [] => 0
  | b :: bs => b + 256 * fromBytesLE bs

theorem length_toBytesLE (w v : Nat) : (toBytesLE w v).length = w := by
  induction w generalizing v with
  | zero => rfl
  | succ w ih => simp [toBytesLE, ih]

theorem fromBytesLE_toBytesLE (w v : Nat) :
    fromBytesLE (toBytesLE w v) = v % 256 ^ w := by
  induction w generalizing v with
  | zero => simp [toBytesLE, fromBytesLE, Nat.mod_one]
  | succ w ih =>
    simp only [toBytesLE, fromBytesLE, ih]
    rw [pow_succ', Nat.mod_mul]

theorem fromBytesLE_toBytesLE_of_lt {w v : Nat} (h : v < 256 ^ w) :
    fromBytesLE (toBytesLE w v) = v := by
  rw [fromBytesLE_toBytesLE, Nat.mod_eq_of_lt h]

theorem toBytesLE_mem_lt (w v : Nat) : ∀ b ∈ toBytesLE w v, b < 256 := by
  induction w generalizing v with
  | zero => simp [toBytesLE]
  | succ w ih =>
    intro b hb
    simp only [toBytesLE, List.mem_cons] at hb
    rcases hb with h | h
    · exact h ▸ Nat.mod_lt _ (by norm_num)
    · exact ih _ b h

/-- The `w` bytes of a byte list starting at offset `off`: one fixed-width
field of a wire layout. -/
def sliceField (off w : Nat) (bs : List Nat) : List Nat :=
  (bs.drop off).take w

/-- Modelled from the spec: `Deadline` (base-transaction collaborator, not in
the given source). A timestamp value; `createEmtpy` produces the empty/zero
sentinel used for embedded transactions. -/
structure Deadline where
  adjustedValue : Nat
  deriving DecidableEq, Repr

/-- Modelled from the spec: the empty/zero sentinel deadline. -/
def Deadline.createEmtpy : Deadline :=
  ⟨0⟩

/-- Modelled from the spec: build a deadline from a decoded wire timestamp. -/
def Deadline.createFromDTO (timestamp : Nat) : Deadline :=
  ⟨timestamp⟩

/-- Modelled from the spec: the wire timestamp of a deadline. -/
def Deadline.toDTO (d : Deadline) : Nat :=
  d.adjustedValue

/-- Modelled from the spec: an address, derived from a public key and a
network type by the external address-derivation collaborator; two addresses
are equal exactly when derived from the same key on the same network. -/
structure Address where
  publicKey : List Nat
  networkType : Nat
  deriving DecidableEq, Repr

/-- Modelled from the spec: `addressFromPublicKey(publicKey, networkType)`. -/
def Address.createFromPublicKey (publicKey : List Nat) (networkType : Nat) :
    Address :=
  ⟨publicKey, networkType⟩

/-- Modelled from the spec: address equality (`equals`). -/
def Address.equals (a b : Address) : Bool :=
  decide (a = b)

/-- Modelled from the spec: a public account, a public key bound to a network
type (account collaborator, not in the given source). -/
structure PublicAccount where
  publicKey : List Nat
  networkType : Nat
  deriving DecidableEq, Repr

/-- Modelled from the spec: `PublicAccount.createFromPublicKey`. -/
def PublicAccount.createFromPublicKey (publicKey : List Nat)
    (networkType : Nat) : PublicAccount :=
  ⟨publicKey, networkType⟩

/-- Modelled from the spec: the address of a public account, via the external
address derivation. -/
def PublicAccount.address (p : PublicAccount) : Address :=
  Address.createFromPublicKey p.publicKey p.networkType

/-- Modelled from the spec: transaction metadata, whose presence indicates
the instance originated from chain data rather than local construction. -/
structure TransactionInfo where
  height : Nat
  deriving DecidableEq, Repr

/-- The source's test `signerPublicKey.match(^[0]+$)` on the hex string of
the signer key: true exactly when the key's byte content is nonempty and
all-zero (each zero byte prints as the hex characters `00`). -/
def isZeroKey (key : List Nat) : Bool :=
  decide (key ≠ [] ∧ ∀ b ∈ key, b = 0)

/-- The transaction-type tag `TransactionType.VOTING_KEY_LINK` (enum
collaborator, value `0x4143`). -/
def TransactionType.VOTING_KEY_LINK : Nat :=
  16707

/-- The fixed version constant `TransactionVersion.VOTING_KEY_LINK_V1` for
this transaction family (enum collaborator). -/
def TransactionVersion.VOTING_KEY_LINK_V1 : Nat :=
  1

/-- Width in bytes of a signature on the wire. -/
def signatureSize : Nat :=
  64

/-- Width in bytes of a signer public key on the wire. -/
def signerKeySize : Nat :=
  32

/-- Width in bytes of a voting key (`VotingKeyV1Dto`): fixed 48 bytes. -/
def votingKeySize : Nat :=
  48

/-- Modelled from the spec: the external codec's standalone builder
`VotingKeyLinkV1TransactionBuilder`, holding the decoded fields of the
standalone wire form in their wire order. -/
structure VotingKeyLinkV1TransactionBuilder where
  signature : List Nat
  signerPublicKey : List Nat
  version : Nat
  network : Nat
  type : Nat
  fee : Nat
  deadline : Nat
  linkedPublicKey : List Nat
  startEpoch : Nat
  endEpoch : Nat
  linkAction : Nat
  deriving DecidableEq, Repr

/-- Modelled from the spec: the external codec's embedded builder
`EmbeddedVotingKeyLinkV1TransactionBuilder`; same fields as the standalone
form omitting signature, fee and deadline. -/
structure EmbeddedVotingKeyLinkV1TransactionBuilder where
  signerPublicKey : List Nat
  version : Nat
  network : Nat
  type : Nat
  linkedPublicKey : List Nat
  startEpoch : Nat
  endEpoch : Nat
  linkAction : Nat
  deriving DecidableEq, Repr

/-- Modelled from the spec: the standalone wire encoding
`[signature][signer public key][version][network][type tag][max fee: 8]
[deadline: 8][linked public key: 48][start epoch: 4][end epoch: 4]
[link action: 1]`. -/
def VotingKeyLinkV1TransactionBuilder.serialize
    (b : VotingKeyLinkV1TransactionBuilder) : List Nat :=
  b.signature ++ b.signerPublicKey ++
    toBytesLE 1 b.version ++ toBytesLE 1 b.network ++ toBytesLE 2 b.type ++
    toBytesLE 8 b.fee ++ toBytesLE 8 b.deadline ++
    b.linkedPublicKey ++ toBytesLE 4 b.startEpoch ++ toBytesLE 4 b.endEpoch ++
    toBytesLE 1 b.linkAction

/-- Modelled from the spec: the embedded wire encoding, the standalone
layout omitting signature, max fee and deadline. -/
def EmbeddedVotingKeyLinkV1TransactionBuilder.serialize
    (b : EmbeddedVotingKeyLinkV1TransactionBuilder) : List Nat :=
  b.signerPublicKey ++
    toBytesLE 1 b.version ++ toBytesLE 1 b.network ++ toBytesLE 2 b.type ++
    b.linkedPublicKey ++ toBytesLE 4 b.startEpoch ++ toBytesLE 4 b.endEpoch ++
    toBytesLE 1 b.linkAction

/-- The byte size of the standalone wire form:
`64 + 32 + 1 + 1 + 2 + 8 + 8 + 48 + 4 + 4 + 1`. -/
def standaloneSize : Nat :=
  173

/-- The byte size of the embedded wire form:
`32 + 1 + 1 + 2 + 48 + 4 + 4 + 1`. -/
def embeddedSize : Nat :=
  93

/-- Modelled from the spec: the external codec's decoder for the standalone
wire form, reading the fixed-width fields at their wire offsets; a payload
shorter than the fixed layout fails with a decode error (`none`). -/
def VotingKeyLinkV1TransactionBuilder.loadFromBinary (bs : List Nat) :
    Option VotingKeyLinkV1TransactionBuilder :=
  if standaloneSize ≤ bs.length then
    some ⟨sliceField 0 64 bs, sliceField 64 32 bs,
      fromBytesLE (sliceField 96 1 bs), fromBytesLE (sliceField 97 1 bs),
      fromBytesLE (sliceField 98 2 bs), fromBytesLE (sliceField 100 8 bs),
      fromBytesLE (sliceField 108 8 bs), sliceField 116 48 bs,
      fromBytesLE (sliceField 164 4 bs), fromBytesLE (sliceField 168 4 bs),
      fromBytesLE (sliceField 172 1 bs)⟩
  else none

/-- Modelled from the spec: the external codec's decoder for the embedded
wire form, reading the fixed-width fields at their wire offsets; a payload
shorter than the fixed layout fails with a decode error (`none`). -/
def EmbeddedVotingKeyLinkV1TransactionBuilder.loadFromBinary (bs : List Nat) :
    Option EmbeddedVotingKeyLinkV1TransactionBuilder :=
  if embeddedSize ≤ bs.length then
    some ⟨sliceField 0 32 bs,
      fromBytesLE (sliceField 32 1 bs), fromBytesLE (sliceField 33 1 bs),
      fromBytesLE (sliceField 34 2 bs), sliceField 36 48 bs,
      fromBytesLE (sliceField 84 4 bs), fromBytesLE (sliceField 88 4 bs),
      fromBytesLE (sliceField 92 1 bs)⟩
  else none

theorem sliceField_peel {c post : List Nat} {off w : Nat}
    (h : c.length ≤ off) :
    sliceField off w (c ++ post) = sliceField (off - c.length) w post := by
  unfold sliceField
  have hoff : off = c.length + (off - c.length) := by omega
  rw [hoff, List.drop_append]
  simp

theorem sliceField_zero (w : Nat) (bs : List Nat) :
    sliceField 0 w bs = bs.take w := by
  simp [sliceField]

theorem VotingKeyLinkV1TransactionBuilder.length_serialize
    (b : VotingKeyLinkV1TransactionBuilder)
    (h1 : b.signature.length = signatureSize)
    (h2 : b.signerPublicKey.length = signerKeySize)
    (h3 : b.linkedPublicKey.length = votingKeySize) :
    b.serialize.length = standaloneSize := by
  simp [VotingKeyLinkV1TransactionBuilder.serialize, h1, h2, h3,
    length_toBytesLE, signatureSize, signerKeySize, votingKeySize,
    standaloneSize]

theorem EmbeddedVotingKeyLinkV1TransactionBuilder.length_serialize_embedded
    (b : EmbeddedVotingKeyLinkV1TransactionBuilder)
    (h2 : b.signerPublicKey.length = signerKeySize)
    (h3 : b.linkedPublicKey.length = votingKeySize) :
    b.serialize.length = embeddedSize := by
  simp [EmbeddedVotingKeyLinkV1TransactionBuilder.serialize, h2, h3,
    length_toBytesLE, signerKeySize, votingKeySize, embeddedSize]

/-- Decoding the standalone wire encoding of a well-formed builder recovers
the builder: the external codec's round-trip contract, instantiated for this
transaction's fixed layout. -/
theorem VotingKeyLinkV1TransactionBuilder.load_serialize
    (b : VotingKeyLinkV1TransactionBuilder)
    (h1 : b.signature.length = signatureSize)
    (h2 : b.signerPublicKey.length = signerKeySize)
    (h3 : b.linkedPublicKey.length = votingKeySize)
    (hver : b.version < 256 ^ 1) (hnet : b.network < 256 ^ 1)
    (hty : b.type < 256 ^ 2) (hfee : b.fee < 256 ^ 8)
    (hdl : b.deadline < 256 ^ 8) (hs : b.startEpoch < 256 ^ 4)
    (he : b.endEpoch < 256 ^ 4) (hla : b.linkAction < 256 ^ 1) :
    VotingKeyLinkV1TransactionBuilder.loadFromBinary b.serialize = some b := by
  have hlen := VotingKeyLinkV1TransactionBuilder.length_serialize b h1 h2 h3
  obtain ⟨sg, pk, ver, net, ty, fee, dl, lk, se, ee, la⟩ := b
  simp only [signatureSize, signerKeySize, votingKeySize] at h1 h2 h3
  unfold VotingKeyLinkV1TransactionBuilder.loadFromBinary
  rw [if_pos (le_of_eq hlen.symm)]
  unfold VotingKeyLinkV1TransactionBuilder.serialize
  simp [List.append_assoc, sliceField_peel, sliceField_zero, h1, h2, h3,
    length_toBytesLE, List.take_append_of_le_length, List.take_of_length_le,
    fromBytesLE_toBytesLE_of_lt, hver, hnet, hty, hfee, hdl, hs, he, hla]
  exact ⟨fromBytesLE_toBytesLE_of_lt hver, fromBytesLE_toBytesLE_of_lt hnet,
    fromBytesLE_toBytesLE_of_lt hty, fromBytesLE_toBytesLE_of_lt hfee,
    fromBytesLE_toBytesLE_of_lt hdl, fromBytesLE_toBytesLE_of_lt hs,
    fromBytesLE_toBytesLE_of_lt he, fromBytesLE_toBytesLE_of_lt hla⟩

/-- Decoding the embedded wire encoding of a well-formed builder recovers
the builder: the external codec's round-trip contract for the embedded
layout. -/
theorem EmbeddedVotingKeyLinkV1TransactionBuilder.load_serialize_embedded
    (b : EmbeddedVotingKeyLinkV1TransactionBuilder)
    (h2 : b.signerPublicKey.length = signerKeySize)
    (h3 : b.linkedPublicKey.length = votingKeySize)
    (hver : b.version < 256 ^ 1) (hnet : b.network < 256 ^ 1)
    (hty : b.type < 256 ^ 2) (hs : b.startEpoch < 256 ^ 4)
    (he : b.endEpoch < 256 ^ 4) (hla : b.linkAction < 256 ^ 1) :
    EmbeddedVotingKeyLinkV1TransactionBuilder.loadFromBinary b.serialize =
      some b := by
  have hlen := EmbeddedVotingKeyLinkV1TransactionBuilder.length_serialize_embedded b
    h2 h3
  obtain ⟨pk, ver, net, ty, lk, se, ee, la⟩ := b
  simp only [signerKeySize, votingKeySize] at h2 h3
  unfold EmbeddedVotingKeyLinkV1TransactionBuilder.loadFromBinary
  rw [if_pos (le_of_eq hlen.symm)]
  unfold EmbeddedVotingKeyLinkV1TransactionBuilder.serialize
  simp [List.append_assoc, sliceField_peel, sliceField_zero, h2, h3,
    length_toBytesLE, List.take_append_of_le_length, List.take_of_length_le,
    fromBytesLE_toBytesLE_of_lt, hver, hnet, hty, hs, he, hla]
  exact ⟨fromBytesLE_toBytesLE_of_lt hver, fromBytesLE_toBytesLE_of_lt hnet,
    fromBytesLE_toBytesLE_of_lt hty, fromBytesLE_toBytesLE_of_lt hs,
    fromBytesLE_toBytesLE_of_lt he, fromBytesLE_toBytesLE_of_lt hla⟩

/-- The transaction model of `VotingKeyLinkV1Transaction.ts`: the fields it
declares (`linkedPublicKey`, `startEpoch`, `endEpoch`, `linkAction`) together
with those the base `Transaction` constructor stores (modelled from the spec:
type, network type, version, deadline, max fee, optional signature, optional
signer, optional transaction info). Public keys and signatures carry the byte
content of the SDK's hex strings; `maxFee` is the `UInt64` value. -/
structure VotingKeyLinkV1Transaction where
  type : Nat
  networkType : Nat
  version : Nat
  deadline : Deadline
  maxFee : Nat
  linkedPublicKey : List Nat
  startEpoch : Nat
  endEpoch : Nat
  linkAction : Nat
  signature : Option (List Nat)
  signer : Option PublicAccount
  transactionInfo : Option TransactionInfo
  deriving DecidableEq, Repr

namespace VotingKeyLinkV1Transaction

/-- The class constructor: stores the declared fields and passes
`TransactionType.VOTING_KEY_LINK`, the network type, version, deadline,
max fee, signature, signer and transaction info to the base constructor. -/
def mkTransaction (networkType : Nat) (version : Nat) (deadline : Deadline)
    (maxFee : Nat) (linkedPublicKey : List Nat) (startEpoch : Nat)
    (endEpoch : Nat) (linkAction : Nat)
    (signature : Option (List Nat) := none)
    (signer : Option PublicAccount := none)
    (transactionInfo : Option TransactionInfo := none) :
    VotingKeyLinkV1Transaction :=
  ⟨TransactionType.VOTING_KEY_LINK, networkType, version, deadline, maxFee,
    linkedPublicKey, startEpoch, endEpoch, linkAction, signature, signer,
    transactionInfo⟩

/-- `VotingKeyLinkV1Transaction.create`: builds a standalone transaction with
the fixed `VOTING_KEY_LINK_V1` version constant; `maxFee` defaults to
`new UInt64([0, 0])`, i.e. zero, and signature/signer default to absent. -/
def create (deadline : Deadline) (linkedPublicKey : List Nat)
    (startEpoch : Nat) (endEpoch : Nat) (linkAction : Nat)
    (networkType : Nat) (maxFee : Nat := 0)
    (signature : Option (List Nat) := none)
    (signer : Option PublicAccount := none) : VotingKeyLinkV1Transaction :=
  mkTransaction networkType TransactionVersion.VOTING_KEY_LINK_V1 deadline
    maxFee linkedPublicKey startEpoch endEpoch linkAction signature signer

/-- Modelled from the spec: the base class's `getSignatureAsBuilder`, the
signature bytes or an all-zero block when the signature is absent. -/
def getSignatureAsBuilder (tx : VotingKeyLinkV1Transaction) : List Nat :=
  (tx.signature.getD (List.replicate signatureSize 0))

/-- Modelled from the spec: the base class's `getSignerAsBuilder`, the signer
public-key bytes or an all-zero block when the signer is absent. -/
def getSignerAsBuilder (tx : VotingKeyLinkV1Transaction) : List Nat :=
  ((tx.signer.map PublicAccount.publicKey).getD
    (List.replicate signerKeySize 0))

/-- Modelled from the spec: the base class's `versionToDTO`, the version
value handed to the codec. -/
def versionToDTO (tx : VotingKeyLinkV1Transaction) : Nat :=
  tx.version

/-- `createBuilder`: maps the typed fields into the standalone codec
builder's constructor arguments, in the source's argument order. -/
def createBuilder (tx : VotingKeyLinkV1Transaction) :
    VotingKeyLinkV1TransactionBuilder :=
  ⟨tx.getSignatureAsBuilder, tx.getSignerAsBuilder, tx.versionToDTO,
    tx.networkType, TransactionType.VOTING_KEY_LINK, tx.maxFee,
    tx.deadline.toDTO, tx.linkedPublicKey, tx.startEpoch, tx.endEpoch,
    tx.linkAction⟩

/-- `toEmbeddedTransaction`: maps the typed fields into the embedded codec
builder's constructor arguments, in the source's argument order. -/
def toEmbeddedTransaction (tx : VotingKeyLinkV1Transaction) :
    EmbeddedVotingKeyLinkV1TransactionBuilder :=
  ⟨tx.getSignerAsBuilder, tx.versionToDTO, tx.networkType,
    TransactionType.VOTING_KEY_LINK, tx.linkedPublicKey, tx.startEpoch,
    tx.endEpoch, tx.linkAction⟩

/-- Modelled from the spec: the base class's `serialize`, the bytes of the
standalone builder produced by `createBuilder`. -/
def serialize (tx : VotingKeyLinkV1Transaction) : List Nat :=
  tx.createBuilder.serialize

/-- `resolveAliases`: a no-op for this transaction type. -/
def resolveAliases (tx : VotingKeyLinkV1Transaction) :
    VotingKeyLinkV1Transaction :=
  tx

/-- Modelled from the spec: the base class's signed-by check `isSigned`:
true when a signer is present and its derived address equals the given
address. -/
def isSigned (tx : VotingKeyLinkV1Transaction) (address : Address) : Bool :=
  match tx.signer with
  | none => false
  | some s => s.address.equals address

/-- `shouldNotifyAccount`: the inherited signed-by check, or equality of the
given address with the address derived from `linkedPublicKey` on this
transaction's network. -/
def shouldNotifyAccount (tx : VotingKeyLinkV1Transaction)
    (address : Address) : Bool :=
  tx.isSigned address ||
    (Address.createFromPublicKey tx.linkedPublicKey tx.networkType).equals
      address

end VotingKeyLinkV1Transaction

/-- Modelled from the spec: the base class's shared helper
`Transaction.getSignatureFromPayload`, which locates the signature region of
the payload given the embedding flag; the signature is absent for embedded
payloads and for unsigned (empty or all-zero signature) ones. In the
standalone layout the signature region is the leading `signatureSize`
bytes. -/
def Transaction.getSignatureFromPayload (payload : List Nat)
    (isEmbedded : Bool) : Option (List Nat) :=
  if isEmbedded then none
  else
    let signatureBytes := payload.take signatureSize
    if signatureBytes = [] ∨ isZeroKey signatureBytes then none
    else some signatureBytes

/-- The value of `createFromPayload`: a standalone transaction, or — for an
embedded payload — the inner-transaction form, the transaction wrapped and
bound to an aggregate signer account. -/
inductive ParsedTransaction where
  | standalone (tx : VotingKeyLinkV1Transaction)
  | inner (tx : VotingKeyLinkV1Transaction) (aggregateSigner : PublicAccount)
  deriving DecidableEq, Repr

namespace VotingKeyLinkV1Transaction

/-- Modelled from the spec: the base class's `toAggregate`, wrapping a
transaction into its inner (aggregate-embedded) form bound to the given
signer account. -/
def toAggregate (tx : VotingKeyLinkV1Transaction) (signer : PublicAccount) :
    ParsedTransaction :=
  ParsedTransaction.inner tx signer

/-- `createFromPayload`: decode the payload with the embedded or standalone
codec according to `isEmbedded`; extract the signer key, network type and
signature; build the transaction via `create` with the decoded fields —
substituting the empty deadline and zero fee in the embedded case, and
leaving the signer unset when the decoded signer key is all-zero — and wrap
an embedded result via `toAggregate`. A codec decode failure propagates
(`none`). -/
def createFromPayload (payload : List Nat) (isEmbedded : Bool := false) :
    Option ParsedTransaction :=
  if isEmbedded then
    match EmbeddedVotingKeyLinkV1TransactionBuilder.loadFromBinary payload with
    | none => none
    | some builder =>
      let signerPublicKey := builder.signerPublicKey
      let networkType := builder.network
      let signature := Transaction.getSignatureFromPayload payload true
      let transaction := create Deadline.createEmtpy builder.linkedPublicKey
        builder.startEpoch builder.endEpoch builder.linkAction networkType 0
        signature
        (if isZeroKey signerPublicKey then none
         else some (PublicAccount.createFromPublicKey signerPublicKey
           networkType))
      some (transaction.toAggregate
        (PublicAccount.createFromPublicKey signerPublicKey networkType))
  else
    match VotingKeyLinkV1TransactionBuilder.loadFromBinary payload with
    | none => none
    | some builder =>
      let signerPublicKey := builder.signerPublicKey
      let networkType := builder.network
      let signature := Transaction.getSignatureFromPayload payload false
      let transaction := create (Deadline.createFromDTO builder.deadline)
        builder.linkedPublicKey builder.startEpoch builder.endEpoch
        builder.linkAction networkType builder.fee signature
        (if isZeroKey signerPublicKey then none
         else some (PublicAccount.createFromPublicKey signerPublicKey
           networkType))
      some (ParsedTransaction.standalone transaction)

end VotingKeyLinkV1Transaction

/-- The transaction carried by a parse result, whether standalone or
wrapped in the inner form. -/
def ParsedTransaction.tx : ParsedTransaction → VotingKeyLinkV1Transaction
  | .standalone tx => tx
  | .inner tx _ => tx

theorem length_sliceField {off w : Nat} {bs : List Nat}
    (h : off + w ≤ bs.length) : (sliceField off w bs).length = w := by
  simp only [sliceField, List.length_take, List.length_drop]
  omega

/-- A successful standalone decode always yields a signer key of the fixed
wire width. -/
theorem VotingKeyLinkV1TransactionBuilder.load_signer_length
    {p : List Nat} {b : VotingKeyLinkV1TransactionBuilder}
    (h : VotingKeyLinkV1TransactionBuilder.loadFromBinary p = some b) :
    b.signerPublicKey.length = signerKeySize := by
  unfold VotingKeyLinkV1TransactionBuilder.loadFromBinary at h
  split_ifs at h with hc
  · cases h
    exact length_sliceField (by
      simp only [standaloneSize] at hc
      omega)

/-- A successful embedded decode always yields a signer key of the fixed
wire width. -/
theorem EmbeddedVotingKeyLinkV1TransactionBuilder.load_signer_length_embedded
    {p : List Nat} {b : EmbeddedVotingKeyLinkV1TransactionBuilder}
    (h : EmbeddedVotingKeyLinkV1TransactionBuilder.loadFromBinary p = some b) :
    b.signerPublicKey.length = signerKeySize := by
  unfold EmbeddedVotingKeyLinkV1TransactionBuilder.loadFromBinary at h
  split_ifs at h with hc
  · cases h
    exact length_sliceField (by
      simp only [embeddedSize] at hc
      omega)

namespace VotingKeyLinkV1Transaction

/-- `createFromPayload` on a standalone payload, characterized in terms of
the decoded builder. -/
theorem createFromPayload_standalone {p : List Nat}
    {b : VotingKeyLinkV1TransactionBuilder}
    (h : VotingKeyLinkV1TransactionBuilder.loadFromBinary p = some b) :
    createFromPayload p false =
      some (ParsedTransaction.standalone
        (create (Deadline.createFromDTO b.deadline) b.linkedPublicKey
          b.startEpoch b.endEpoch b.linkAction b.network b.fee
          (Transaction.getSignatureFromPayload p false)
          (if isZeroKey b.signerPublicKey then none
           else some (PublicAccount.createFromPublicKey b.signerPublicKey
             b.network)))) := by
  simp [createFromPayload, h]

/-- `createFromPayload` on an embedded payload, characterized in terms of
the decoded builder. -/
theorem createFromPayload_embedded {p : List Nat}
    {b : EmbeddedVotingKeyLinkV1TransactionBuilder}
    (h : EmbeddedVotingKeyLinkV1TransactionBuilder.loadFromBinary p =
      some b) :
    createFromPayload p true =
      some (ParsedTransaction.inner
        (create Deadline.createEmtpy b.linkedPublicKey
          b.startEpoch b.endEpoch b.linkAction b.network 0
          (Transaction.getSignatureFromPayload p true)
          (if isZeroKey b.signerPublicKey then none
           else some (PublicAccount.createFromPublicKey b.signerPublicKey
             b.network)))
        (PublicAccount.createFromPublicKey b.signerPublicKey b.network)) := by
  simp [createFromPayload, toAggregate, h]

end VotingKeyLinkV1Transaction

/-! ## Concrete sample values

Used by the witness theorems to instantiate the claims at evaluable
inputs. -/

/-- A concrete 48-byte voting key. -/
def sampleKey48 : List Nat :=
  List.replicate 48 7

/-- A concrete nonzero 64-byte signature. -/
def sampleSig64 : List Nat :=
  List.replicate 64 5

/-- A concrete signer account with a nonzero 32-byte public key on network
`152`. -/
def sampleSigner : PublicAccount :=
  ⟨List.replicate 32 9, 152⟩

/-- A concrete fully populated standalone transaction. -/
def sampleTx : VotingKeyLinkV1Transaction :=
  VotingKeyLinkV1Transaction.create ⟨100⟩ sampleKey48 2 10 1 152 77
    (some sampleSig64) (some sampleSigner)

/-- A concrete signerless transaction, whose embedded encoding carries an
all-zero signer-key block. -/
def sampleTxUnsigned : VotingKeyLinkV1Transaction :=
  VotingKeyLinkV1Transaction.create ⟨100⟩ sampleKey48 2 10 1 152

/-! ## Claims -/

/-- C6: for every call to `create(...)` with no explicit `maxFee` argument,
the resulting transaction's `maxFee` equals zero. -/
theorem claim_C6 (d : Deadline) (k : List Nat) (s e la nt : Nat) :
    (VotingKeyLinkV1Transaction.create d k s e la nt).maxFee = 0 :=
  rfl

/-- C7: every transaction built by `create(...)`, whatever the arguments,
has version `TransactionVersion.VOTING_KEY_LINK_V1` and transaction type
`TransactionType.VOTING_KEY_LINK`. -/
theorem claim_C7 (d : Deadline) (k : List Nat) (s e la nt fee : Nat)
    (sig : Option (List Nat)) (sgn : Option PublicAccount) :
    (VotingKeyLinkV1Transaction.create d k s e la nt fee sig sgn).version =
      TransactionVersion.VOTING_KEY_LINK_V1 ∧
    (VotingKeyLinkV1Transaction.create d k s e la nt fee sig sgn).type =
      TransactionType.VOTING_KEY_LINK :=
  ⟨rfl, rfl⟩

/-- C10: neither `create` nor `createFromPayload` ever supplies transaction
metadata: the `transactionInfo` field of every transaction they produce is
unset. -/
theorem claim_C10 :
    (∀ (d : Deadline) (k : List Nat) (s e la nt fee : Nat)
        (sig : Option (List Nat)) (sgn : Option PublicAccount),
      (VotingKeyLinkV1Transaction.create d k s e la nt fee sig
        sgn).transactionInfo = none) ∧
    (∀ (p : List Nat) (isEmbedded : Bool) (r : ParsedTransaction),
      VotingKeyLinkV1Transaction.createFromPayload p isEmbedded = some r →
      r.tx.transactionInfo = none) := by
  refine ⟨fun _ _ _ _ _ _ _ _ _ => rfl, fun p isEmbedded r h => ?_⟩
  cases isEmbedded with
  | false =>
    cases hl : VotingKeyLinkV1TransactionBuilder.loadFromBinary p with
    | none => simp [VotingKeyLinkV1Transaction.createFromPayload, hl] at h
    | some b =>
      rw [VotingKeyLinkV1Transaction.createFromPayload_standalone hl] at h
      obtain rfl := Option.some.inj h
      rfl
  | true =>
    cases hl : EmbeddedVotingKeyLinkV1TransactionBuilder.loadFromBinary p with
    | none => simp [VotingKeyLinkV1Transaction.createFromPayload, hl] at h
    | some b =>
      rw [VotingKeyLinkV1Transaction.createFromPayload_embedded hl] at h
      obtain rfl := Option.some.inj h
      rfl

/-- Witness for C10 at concrete inputs: a locally constructed transaction
and a parsed standalone payload both carry no transaction metadata. -/
theorem claim_C10_witness :
    (VotingKeyLinkV1Transaction.create ⟨0⟩ [] 0 0 0 0).transactionInfo =
      none ∧
    (ParsedTransaction.standalone sampleTx).tx.transactionInfo = none :=
  ⟨claim_C10.1 ⟨0⟩ [] 0 0 0 0 0 none none,
    claim_C10.2 sampleTx.serialize false
      (ParsedTransaction.standalone sampleTx) (by decide)⟩

/-- C3: `shouldNotifyAccount(address)` is true exactly when the inherited
signed-by check holds for the address or the address derived from
`linkedPublicKey` under the transaction's network type equals it; in
particular it is true for the linked-key address regardless of the signer,
and false for an address matching neither. -/
theorem claim_C3 (tx : VotingKeyLinkV1Transaction) (address : Address) :
    (tx.shouldNotifyAccount address = true ↔
      (tx.isSigned address = true ∨
        Address.createFromPublicKey tx.linkedPublicKey tx.networkType =
          address)) ∧
    tx.shouldNotifyAccount
      (Address.createFromPublicKey tx.linkedPublicKey tx.networkType) =
      true ∧
    (tx.isSigned address = false →
      Address.createFromPublicKey tx.linkedPublicKey tx.networkType ≠
        address →
      tx.shouldNotifyAccount address = false) := by
  refine ⟨?_, ?_, fun h1 h2 => ?_⟩
  · simp [VotingKeyLinkV1Transaction.shouldNotifyAccount, Address.equals]
  · simp [VotingKeyLinkV1Transaction.shouldNotifyAccount, Address.equals]
  · simp [VotingKeyLinkV1Transaction.shouldNotifyAccount, Address.equals,
      h1, h2]

/-- Witness for C3 at a concrete input: an address unrelated to both the
signer and the linked key is not notified. -/
theorem claim_C3_witness :
    sampleTx.shouldNotifyAccount ⟨[1], 0⟩ = false :=
  (claim_C3 sampleTx ⟨[1], 0⟩).2.2 (by decide) (by decide)

/-- C4: every embedded parse yields a transaction with zero `maxFee` and the
empty sentinel deadline, whatever the payload contents. -/
theorem claim_C4 (p : List Nat) (tx : VotingKeyLinkV1Transaction)
    (acc : PublicAccount)
    (h : VotingKeyLinkV1Transaction.createFromPayload p true =
      some (ParsedTransaction.inner tx acc)) :
    tx.maxFee = 0 ∧ tx.deadline = Deadline.createEmtpy := by
  cases hl : EmbeddedVotingKeyLinkV1TransactionBuilder.loadFromBinary p with
  | none => simp [VotingKeyLinkV1Transaction.createFromPayload, hl] at h
  | some b =>
    rw [VotingKeyLinkV1Transaction.createFromPayload_embedded hl] at h
    simp only [Option.some.injEq, ParsedTransaction.inner.injEq] at h
    obtain ⟨h1, -⟩ := h
    subst h1
    exact ⟨rfl, rfl⟩

/-- The transaction decoded from `sampleTx`'s embedded wire form. -/
def sampleEmbeddedTx : VotingKeyLinkV1Transaction :=
  VotingKeyLinkV1Transaction.create Deadline.createEmtpy sampleKey48 2 10 1
    152 0 none (some sampleSigner)

/-- Witness for C4 at a concrete input: the transaction parsed from a
concrete embedded payload has zero fee and the empty deadline. -/
theorem claim_C4_witness :
    sampleEmbeddedTx.maxFee = 0 ∧
    sampleEmbeddedTx.deadline = Deadline.createEmtpy :=
  claim_C4 sampleTx.toEmbeddedTransaction.serialize sampleEmbeddedTx
    sampleSigner (by decide)

/-- C2: for every successfully parsed payload, an all-zero decoded
signer-key leaves the transaction's signer unset, and any nonzero decoded
signer key yields a signer built from the decoded key and the decoded
network type — in both the standalone and the embedded form. -/
theorem claim_C2 :
    (∀ (p : List Nat) (b : VotingKeyLinkV1TransactionBuilder)
        (tx : VotingKeyLinkV1Transaction),
      VotingKeyLinkV1TransactionBuilder.loadFromBinary p = some b →
      VotingKeyLinkV1Transaction.createFromPayload p false =
        some (ParsedTransaction.standalone tx) →
      ((∀ x ∈ b.signerPublicKey, x = 0) → tx.signer = none) ∧
      ((∃ x ∈ b.signerPublicKey, x ≠ 0) →
        tx.signer = some (PublicAccount.createFromPublicKey
          b.signerPublicKey b.network))) ∧
    (∀ (p : List Nat) (b : EmbeddedVotingKeyLinkV1TransactionBuilder)
        (tx : VotingKeyLinkV1Transaction) (acc : PublicAccount),
      EmbeddedVotingKeyLinkV1TransactionBuilder.loadFromBinary p = some b →
      VotingKeyLinkV1Transaction.createFromPayload p true =
        some (ParsedTransaction.inner tx acc) →
      ((∀ x ∈ b.signerPublicKey, x = 0) → tx.signer = none) ∧
      ((∃ x ∈ b.signerPublicKey, x ≠ 0) →
        tx.signer = some (PublicAccount.createFromPublicKey
          b.signerPublicKey b.network))) := by
  constructor
  · intro p b tx h hp
    have hne : b.signerPublicKey ≠ [] := by
      have := VotingKeyLinkV1TransactionBuilder.load_signer_length h
      intro hnil
      rw [hnil] at this
      simp [signerKeySize] at this
    rw [VotingKeyLinkV1Transaction.createFromPayload_standalone h] at hp
    simp only [Option.some.injEq, ParsedTransaction.standalone.injEq] at hp
    subst hp
    constructor
    · intro hz
      have hzk : isZeroKey b.signerPublicKey = true := by
        simp only [isZeroKey, decide_eq_true_eq]
        exact ⟨hne, hz⟩
      simp [VotingKeyLinkV1Transaction.create,
        VotingKeyLinkV1Transaction.mkTransaction, hzk]
    · rintro ⟨x, hx, hxne⟩
      have hzk : isZeroKey b.signerPublicKey = false := by
        simp only [isZeroKey, decide_eq_false_iff_not]
        rintro ⟨-, hall⟩
        exact hxne (hall x hx)
      simp [VotingKeyLinkV1Transaction.create,
        VotingKeyLinkV1Transaction.mkTransaction, hzk]
  · intro p b tx acc h hp
    have hne : b.signerPublicKey ≠ [] := by
      have := EmbeddedVotingKeyLinkV1TransactionBuilder.load_signer_length_embedded h
      intro hnil
      rw [hnil] at this
      simp [signerKeySize] at this
    rw [VotingKeyLinkV1Transaction.createFromPayload_embedded h] at hp
    simp only [Option.some.injEq, ParsedTransaction.inner.injEq] at hp
    obtain ⟨h1, -⟩ := hp
    subst h1
    constructor
    · intro hz
      have hzk : isZeroKey b.signerPublicKey = true := by
        simp only [isZeroKey, decide_eq_true_eq]
        exact ⟨hne, hz⟩
      simp [VotingKeyLinkV1Transaction.create,
        VotingKeyLinkV1Transaction.mkTransaction, hzk]
    · rintro ⟨x, hx, hxne⟩
      have hzk : isZeroKey b.signerPublicKey = false := by
        simp only [isZeroKey, decide_eq_false_iff_not]
        rintro ⟨-, hall⟩
        exact hxne (hall x hx)
      simp [VotingKeyLinkV1Transaction.create,
        VotingKeyLinkV1Transaction.mkTransaction, hzk]

/-- Witness for C2 at a concrete input: a payload with the nonzero signer
key `9…9` parses to a transaction whose signer is the public account built
from that key on network `152`. -/
theorem claim_C2_witness :
    sampleTx.signer =
      some (PublicAccount.createFromPublicKey (List.replicate 32 9) 152) :=
  (claim_C2.1 sampleTx.serialize sampleTx.createBuilder sampleTx
    (by decide) (by decide)).2 ⟨9, by decide, by decide⟩

/-- C9: every embedded parse wraps the transaction via `toAggregate` with a
public account built from the decoded signer-key bytes — even when those
bytes are all zero, which is exactly the case in which the transaction's own
signer field is left unset. -/
theorem claim_C9 (p : List Nat)
    (b : EmbeddedVotingKeyLinkV1TransactionBuilder)
    (h : EmbeddedVotingKeyLinkV1TransactionBuilder.loadFromBinary p =
      some b) :
    ∃ tx : VotingKeyLinkV1Transaction,
      VotingKeyLinkV1Transaction.createFromPayload p true =
        some (tx.toAggregate
          (PublicAccount.createFromPublicKey b.signerPublicKey b.network)) ∧
      (tx.signer = none ↔ ∀ x ∈ b.signerPublicKey, x = 0) := by
  have hne : b.signerPublicKey ≠ [] := by
    have := EmbeddedVotingKeyLinkV1TransactionBuilder.load_signer_length_embedded h
    intro hnil
    rw [hnil] at this
    simp [signerKeySize] at this
  refine ⟨_, VotingKeyLinkV1Transaction.createFromPayload_embedded h, ?_⟩
  by_cases hzk : isZeroKey b.signerPublicKey
  · simp only [isZeroKey, decide_eq_true_eq] at hzk
    simp [VotingKeyLinkV1Transaction.create,
      VotingKeyLinkV1Transaction.mkTransaction, isZeroKey, hne, hzk.2]
  · simp only [isZeroKey, decide_eq_true_eq, not_and_or, not_forall] at hzk
    have hzk' : ¬ ∀ x ∈ b.signerPublicKey, x = 0 := by
      rcases hzk with h' | h'
      · exact absurd hne (by simpa using h')
      · simpa using h'
    simp [VotingKeyLinkV1Transaction.create,
      VotingKeyLinkV1Transaction.mkTransaction, isZeroKey, hne, hzk']

/-- Witness for C9 at a concrete input: a payload with an all-zero signer
block is wrapped with the zero-key account while the inner transaction's
signer stays unset. -/
theorem claim_C9_witness :
    ∃ tx : VotingKeyLinkV1Transaction,
      VotingKeyLinkV1Transaction.createFromPayload
        sampleTxUnsigned.toEmbeddedTransaction.serialize true =
        some (tx.toAggregate
          (PublicAccount.createFromPublicKey
            sampleTxUnsigned.toEmbeddedTransaction.signerPublicKey
            sampleTxUnsigned.toEmbeddedTransaction.network)) ∧
      (tx.signer = none ↔
        ∀ x ∈ sampleTxUnsigned.toEmbeddedTransaction.signerPublicKey,
          x = 0) :=
  claim_C9 sampleTxUnsigned.toEmbeddedTransaction.serialize
    sampleTxUnsigned.toEmbeddedTransaction (by decide)

/-- C8: `createFromPayload` fails exactly when the external codec's decode
fails — in particular on every truncated payload — and otherwise returns a
fully constructed transaction; there is no partial result. -/
theorem claim_C8 (p : List Nat) :
    (VotingKeyLinkV1Transaction.createFromPayload p false = none ↔
      VotingKeyLinkV1TransactionBuilder.loadFromBinary p = none) ∧
    (VotingKeyLinkV1Transaction.createFromPayload p true = none ↔
      EmbeddedVotingKeyLinkV1TransactionBuilder.loadFromBinary p = none) ∧
    (p.length < standaloneSize →
      VotingKeyLinkV1Transaction.createFromPayload p false = none) ∧
    (p.length < embeddedSize →
      VotingKeyLinkV1Transaction.createFromPayload p true = none) := by
  have h1 : VotingKeyLinkV1Transaction.createFromPayload p false = none ↔
      VotingKeyLinkV1TransactionBuilder.loadFromBinary p = none := by
    cases hl : VotingKeyLinkV1TransactionBuilder.loadFromBinary p with
    | none => simp [VotingKeyLinkV1Transaction.createFromPayload, hl]
    | some b =>
      rw [VotingKeyLinkV1Transaction.createFromPayload_standalone hl]
      simp
  have h2 : VotingKeyLinkV1Transaction.createFromPayload p true = none ↔
      EmbeddedVotingKeyLinkV1TransactionBuilder.loadFromBinary p = none := by
    cases hl : EmbeddedVotingKeyLinkV1TransactionBuilder.loadFromBinary p with
    | none => simp [VotingKeyLinkV1Transaction.createFromPayload, hl]
    | some b =>
      rw [VotingKeyLinkV1Transaction.createFromPayload_embedded hl]
      simp
  refine ⟨h1, h2, fun hlt => h1.mpr ?_, fun hlt => h2.mpr ?_⟩
  · have hc : ¬ standaloneSize ≤ p.length := by omega
    simp [VotingKeyLinkV1TransactionBuilder.loadFromBinary, hc]
  · have hc : ¬ embeddedSize ≤ p.length := by omega
    simp [EmbeddedVotingKeyLinkV1TransactionBuilder.loadFromBinary, hc]

/-- Witness for C8 at a concrete input: a 50-byte truncated payload fails
to parse in both forms. -/
theorem claim_C8_witness :
    VotingKeyLinkV1Transaction.createFromPayload (List.replicate 50 0)
        false = none ∧
    VotingKeyLinkV1Transaction.createFromPayload (List.replicate 50 0)
        true = none :=
  ⟨(claim_C8 (List.replicate 50 0)).2.2.1 (by decide),
    (claim_C8 (List.replicate 50 0)).2.2.2 (by decide)⟩

/-- C1: for every valid field combination, serializing the transaction
built by `create(...)` and parsing the payload back with
`createFromPayload` reproduces `linkedPublicKey`, `startEpoch`, `endEpoch`,
`linkAction` and `networkType` — and, for the standalone form, also
`maxFee` and `deadline`. -/
theorem claim_C1 (d : Deadline) (key : List Nat) (s e la nt fee : Nat)
    (sig : Option (List Nat)) (sgn : Option PublicAccount)
    (hkey : key.length = votingKeySize)
    (hsig : ∀ x, sig = some x → x.length = signatureSize)
    (hsgn : ∀ a, sgn = some a → a.publicKey.length = signerKeySize)
    (hnt : nt < 256) (hla : la < 256) (hs : s < 2 ^ 32) (he : e < 2 ^ 32)
    (hfee : fee < 2 ^ 64) (hd : d.adjustedValue < 2 ^ 64) :
    (∃ tx : VotingKeyLinkV1Transaction,
      VotingKeyLinkV1Transaction.createFromPayload
          (VotingKeyLinkV1Transaction.create d key s e la nt fee sig
            sgn).serialize false =
        some (ParsedTransaction.standalone tx) ∧
      tx.linkedPublicKey = key ∧ tx.startEpoch = s ∧ tx.endEpoch = e ∧
      tx.linkAction = la ∧ tx.networkType = nt ∧ tx.maxFee = fee ∧
      tx.deadline = d) ∧
    (∃ (tx : VotingKeyLinkV1Transaction) (acc : PublicAccount),
      VotingKeyLinkV1Transaction.createFromPayload
          (VotingKeyLinkV1Transaction.create d key s e la nt fee sig
            sgn).toEmbeddedTransaction.serialize true =
        some (ParsedTransaction.inner tx acc) ∧
      tx.linkedPublicKey = key ∧ tx.startEpoch = s ∧ tx.endEpoch = e ∧
      tx.linkAction = la ∧ tx.networkType = nt) := by
  have hsigB : (VotingKeyLinkV1Transaction.create d key s e la nt fee sig
      sgn).getSignatureAsBuilder.length = signatureSize := by
    rcases sig with _ | x
    · rfl
    · exact hsig x rfl
  have hsgnB : (VotingKeyLinkV1Transaction.create d key s e la nt fee sig
      sgn).getSignerAsBuilder.length = signerKeySize := by
    rcases sgn with _ | a
    · rfl
    · exact hsgn a rfl
  have hload := VotingKeyLinkV1TransactionBuilder.load_serialize
    (VotingKeyLinkV1Transaction.create d key s e la nt fee sig
      sgn).createBuilder
    hsigB hsgnB hkey
    (show (1 : Nat) < 256 ^ 1 by norm_num)
    (show nt < 256 ^ 1 by rw [pow_one]; exact hnt)
    (show (16707 : Nat) < 256 ^ 2 by norm_num)
    (show fee < 256 ^ 8 by
      rw [show (256 : Nat) ^ 8 = 2 ^ 64 by norm_num]; exact hfee)
    (show d.adjustedValue < 256 ^ 8 by
      rw [show (256 : Nat) ^ 8 = 2 ^ 64 by norm_num]; exact hd)
    (show s < 256 ^ 4 by
      rw [show (256 : Nat) ^ 4 = 2 ^ 32 by norm_num]; exact hs)
    (show e < 256 ^ 4 by
      rw [show (256 : Nat) ^ 4 = 2 ^ 32 by norm_num]; exact he)
    (show la < 256 ^ 1 by rw [pow_one]; exact hla)
  have hloadE := EmbeddedVotingKeyLinkV1TransactionBuilder.load_serialize_embedded
    (VotingKeyLinkV1Transaction.create d key s e la nt fee sig
      sgn).toEmbeddedTransaction
    hsgnB hkey
    (show (1 : Nat) < 256 ^ 1 by norm_num)
    (show nt < 256 ^ 1 by rw [pow_one]; exact hnt)
    (show (16707 : Nat) < 256 ^ 2 by norm_num)
    (show s < 256 ^ 4 by
      rw [show (256 : Nat) ^ 4 = 2 ^ 32 by norm_num]; exact hs)
    (show e < 256 ^ 4 by
      rw [show (256 : Nat) ^ 4 = 2 ^ 32 by norm_num]; exact he)
    (show la < 256 ^ 1 by rw [pow_one]; exact hla)
  constructor
  · exact ⟨_, VotingKeyLinkV1Transaction.createFromPayload_standalone hload,
      rfl, rfl, rfl, rfl, rfl, rfl, rfl⟩
  · exact ⟨_, _, VotingKeyLinkV1Transaction.createFromPayload_embedded
      hloadE, rfl, rfl, rfl, rfl, rfl⟩

/-- Witness for C1 at a concrete input: parsing the serialized form of a
concrete fully populated transaction reproduces all its fields. -/
theorem claim_C1_witness :
    ∃ tx : VotingKeyLinkV1Transaction,
      VotingKeyLinkV1Transaction.createFromPayload sampleTx.serialize
          false = some (ParsedTransaction.standalone tx) ∧
      tx.linkedPublicKey = sampleKey48 ∧ tx.startEpoch = 2 ∧
      tx.endEpoch = 10 ∧ tx.linkAction = 1 ∧ tx.networkType = 152 ∧
      tx.maxFee = 77 ∧ tx.deadline = ⟨100⟩ :=
  (claim_C1 ⟨100⟩ sampleKey48 2 10 1 152 77 (some sampleSig64)
    (some sampleSigner) (by decide)
    (fun x hx => by cases hx; decide)
    (fun a ha => by cases ha; decide)
    (by decide) (by decide) (by decide) (by decide) (by decide)
    (by decide)).1

/-- C5: the standalone encoding lays the fields out in exactly the order
signature, signer public key, version, network, type tag, max fee,
deadline, linked public key, start epoch, end epoch, link action — each at
its fixed wire offset — and the embedded encoding lays out the same order
omitting signature, max fee and deadline. -/
theorem claim_C5 (tx : VotingKeyLinkV1Transaction)
    (h1 : tx.getSignatureAsBuilder.length = signatureSize)
    (h2 : tx.getSignerAsBuilder.length = signerKeySize)
    (h3 : tx.linkedPublicKey.length = votingKeySize) :
    (sliceField 0 64 tx.serialize = tx.getSignatureAsBuilder ∧
      sliceField 64 32 tx.serialize = tx.getSignerAsBuilder ∧
      sliceField 96 1 tx.serialize = toBytesLE 1 tx.versionToDTO ∧
      sliceField 97 1 tx.serialize = toBytesLE 1 tx.networkType ∧
      sliceField 98 2 tx.serialize =
        toBytesLE 2 TransactionType.VOTING_KEY_LINK ∧
      sliceField 100 8 tx.serialize = toBytesLE 8 tx.maxFee ∧
      sliceField 108 8 tx.serialize = toBytesLE 8 tx.deadline.toDTO ∧
      sliceField 116 48 tx.serialize = tx.linkedPublicKey ∧
      sliceField 164 4 tx.serialize = toBytesLE 4 tx.startEpoch ∧
      sliceField 168 4 tx.serialize = toBytesLE 4 tx.endEpoch ∧
      sliceField 172 1 tx.serialize = toBytesLE 1 tx.linkAction) ∧
    (sliceField 0 32 tx.toEmbeddedTransaction.serialize =
        tx.getSignerAsBuilder ∧
      sliceField 32 1 tx.toEmbeddedTransaction.serialize =
        toBytesLE 1 tx.versionToDTO ∧
      sliceField 33 1 tx.toEmbeddedTransaction.serialize =
        toBytesLE 1 tx.networkType ∧
      sliceField 34 2 tx.toEmbeddedTransaction.serialize =
        toBytesLE 2 TransactionType.VOTING_KEY_LINK ∧
      sliceField 36 48 tx.toEmbeddedTransaction.serialize =
        tx.linkedPublicKey ∧
      sliceField 84 4 tx.toEmbeddedTransaction.serialize =
        toBytesLE 4 tx.startEpoch ∧
      sliceField 88 4 tx.toEmbeddedTransaction.serialize =
        toBytesLE 4 tx.endEpoch ∧
      sliceField 92 1 tx.toEmbeddedTransaction.serialize =
        toBytesLE 1 tx.linkAction) := by
  constructor
  · simp only [VotingKeyLinkV1Transaction.serialize,
      VotingKeyLinkV1Transaction.createBuilder,
      VotingKeyLinkV1TransactionBuilder.serialize]
    simp [List.append_assoc, sliceField_peel, sliceField_zero, h1, h2, h3,
      length_toBytesLE, List.take_append_of_le_length,
      List.take_of_length_le, signatureSize, signerKeySize, votingKeySize]
  · simp only [VotingKeyLinkV1Transaction.toEmbeddedTransaction,
      EmbeddedVotingKeyLinkV1TransactionBuilder.serialize]
    simp [List.append_assoc, sliceField_peel, sliceField_zero, h2, h3,
      length_toBytesLE, List.take_append_of_le_length,
      List.take_of_length_le, signerKeySize, votingKeySize]

/-- Witness for C5 at a concrete input: the linked public key of a concrete
transaction occupies bytes 116–163 of its standalone encoding. -/
theorem claim_C5_witness :
    sliceField 116 48 sampleTx.serialize = sampleTx.linkedPublicKey :=
  (claim_C5 sampleTx (by decide) (by decide)
    (by decide)).1.2.2.2.2.2.2.2.1

end SymbolSdk
